import Mathlib

/-! # cherry: file-backed data-config source

A shallow embedding of `component/data_config/source_file.go` (type `SourceFile` with
`Name`, `Init`, `ReadBytes`, `OnChange`, `newWatcher`, `Stop`).

The collaborators that the file imports but does not define (`cherryFile`, `ioutil`,
`cherryProfile`, the `watcher` library) are taken as parameters, gathered in `Env` and
`Profile`.  Every call to a collaborator, every log line, every goroutine launch, every
channel send and every callback invocation is recorded, in program order, in a list of
`Effect`s, so that statements such as "the file is not read" or "the callback is invoked
exactly once" are statements about that list.
-/

namespace Cherry

/-! ## Values -/

/-- Content of a file. -/
abbrev Bytes := List UInt8

/-- Go value of type `[]byte`; `none` is the nil slice. -/
abbrev ByteSlice := Option Bytes

/-- Go `len` on a `[]byte`. -/
def len : ByteSlice → Nat
  | none => 0
  | some b => b.length

/-- Non-nil `error` value returned by a collaborator (`cherryFile.JoinPath`,
`ioutil.ReadFile`, the watcher). -/
structure ExtError where
  msg : String
  deriving DecidableEq, Repr

/-- Argument handed to a formatting or logging call. -/
inductive Arg where
  | str (s : String)
  | err (e : Option ExtError)
  deriving DecidableEq, Repr

/-- Error value built by `cherryError.Error(text)` or `cherryError.Errorf(text, args...)`;
the text and the arguments are kept as they are passed. -/
structure CherryError where
  text : String
  args : List Arg
  deriving DecidableEq, Repr

/-- Go call `cherryError.Error(text)`. -/
def cherryError.Error (text : String) : CherryError :=
  { text := text, args := [] }

/-- Go call `cherryError.Errorf(format, args...)`. -/
def cherryError.Errorf (format : String) (args : List Arg) : CherryError :=
  { text := format, args := args }

/-- Non-nil function value of type `ConfigChangeFn`, known by its identity. -/
structure Func where
  id : Nat
  deriving DecidableEq, Repr

/-- Go value of the function type `ConfigChangeFn`; `none` is nil. -/
abbrev ConfigChangeFn := Option Func

/-- State of a `watcher.Watcher` as far as `newWatcher` and `Stop` configure it. -/
structure Watcher where
  maxEvents : Nat
  ops : List String
  names : List String
  deriving DecidableEq, Repr

/-- Go call `watcher.New()`. -/
def watcher.New : Watcher :=
  { maxEvents := 0, ops := [], names := [] }

/-- What the program does to the outside world, in program order. -/
inductive Effect where
  /-- Call `cherryFile.JoinPath(a, b)`. -/
  | joinPath (a b : String)
  /-- Call `cherryFile.IsDir(path)`. -/
  | isDir (path : String)
  /-- Call `ioutil.ReadFile(path)`. -/
  | readFile (path : String)
  /-- Call `cherryLogger.<fn>(args...)`. -/
  | log (fn : String) (args : List Arg)
  /-- Call `cherryLogger.<fn>(err)` with an error built by `cherryError`. -/
  | logError (fn : String) (e : CherryError)
  /-- Statement `go f.newWatcher()`. -/
  | goNewWatcher
  /-- Call `f.watcher.Add(path)`. -/
  | watcherAdd (path : String)
  /-- Statement `go func() { for { select ... } }()`. -/
  | goLoop
  /-- Call `f.watcher.Start(time.Millisecond * time.Duration(ms))`. -/
  | watcherStart (ms : Int)
  /-- Call `f.watcher.Remove(path)`. -/
  | watcherRemove (path : String)
  /-- Statement `f.watcher.Closed <- struct{}{}`. -/
  | sendClosed
  /-- Call `f.configChangeFn(configName, data)`. -/
  | call (fn : Func) (configName : String) (data : ByteSlice)
  deriving DecidableEq, Repr

/-- One callback invocation: which function, with which arguments. -/
structure Call where
  fn : Func
  configName : String
  data : ByteSlice
  deriving DecidableEq, Repr

/-- Callback invocations of a list of effects, in order. -/
def callsOf : List Effect → List Call
  | [] => []
  | Effect.call fn n d :: es => { fn := fn, configName := n, data := d } :: callsOf es
  | _ :: es => callsOf es

/-- Is the effect a call of `ioutil.ReadFile`? -/
def Effect.isRead : Effect → Bool
  | Effect.readFile _ => true
  | _ => false

/-! ## Collaborators -/

/-- Results of the calls into packages outside the source file. -/
structure Env where
  /-- Result pair of `cherryFile.JoinPath(a, b)`. -/
  JoinPath : String → String → String × Option ExtError
  /-- Result of `cherryFile.IsDir(path)`. -/
  IsDir : String → Bool
  /-- Result pair of `ioutil.ReadFile(path)`. -/
  ReadFile : String → ByteSlice × Option ExtError
  /-- Result of `cherryFile.GetFileName(name, removeExt)`. -/
  GetFileName : String → Bool → String
  /-- Result of `watcher.Add(path)`. -/
  Add : String → Option ExtError
  /-- Result of `watcher.Remove(path)`. -/
  Remove : String → Option ExtError
  /-- Result of `watcher.Start(d)`, `d` in milliseconds. -/
  Start : Int → Option ExtError

/-- Node `data_config -> file` of the configuration document, by what its three
children read as; a child that is missing reads as the empty string or as 0. -/
structure FileNode where
  /-- What the child `file_path` reads as with `ToString()`. -/
  file_path : String
  /-- What the child `ext_name` reads as with `ToString()`. -/
  ext_name : String
  /-- What the child `reload_time` reads as with `ToInt64()`. -/
  reload_time : Int
  deriving DecidableEq, Repr

/-- What `Init` reads from `cherryProfile`. -/
structure Profile where
  /-- Node `data_config -> file` of the loaded document; `none` when the document has no
  such node. -/
  file : Option FileNode
  /-- Value of `cherryProfile.Dir()`. -/
  Dir : String
  /-- Value of `cherryProfile.FileName()`. -/
  FileName : String
  deriving DecidableEq, Repr

/-- Non-nil value of the interface type `jsoniter.Any`, which is what `cherryProfile`
hands out. -/
inductive Any where
  /-- The invalid value that `Get` answers for a key the document does not have. -/
  | invalid
  /-- The node found under the key. -/
  | object (node : FileNode)
  deriving DecidableEq, Repr

/-- Go expression `fileNode.Get("file_path").ToString()`; on the invalid value `Get` is
invalid again and `ToString` gives the empty string. -/
def Any.file_path : Any → String
  | Any.invalid => ""
  | Any.object node => node.file_path

/-- Go expression `fileNode.Get("ext_name").ToString()`. -/
def Any.ext_name : Any → String
  | Any.invalid => ""
  | Any.object node => node.ext_name

/-- Go expression `fileNode.Get("reload_time").ToInt64()`; on the invalid value `ToInt64`
gives 0. -/
def Any.reload_time : Any → Int
  | Any.invalid => 0
  | Any.object node => node.reload_time

/-- Go expression `cherryProfile.GetConfig("data_config").Get("file")`, a value of the
interface type `jsoniter.Any` (`none` is nil).  `Get` never answers nil: for a node that
the document does not have it answers the invalid value. -/
def Profile.Get_file (p : Profile) : Option Any :=
  match p.file with
  | none => some Any.invalid
  | some node => some (Any.object node)

/-! ## SourceFile -/

/-- Go struct `SourceFile`. -/
structure SourceFile where
  monitorPath : String
  watcher : Option Watcher
  reloadTime : Int
  extName : String
  configChangeFn : ConfigChangeFn
  deriving DecidableEq, Repr

/-- Zero value of `SourceFile`. -/
def SourceFile.zero : SourceFile :=
  { monitorPath := "", watcher := none, reloadTime := 0, extName := "",
    configChangeFn := none }

/-- Method `Name`. -/
def SourceFile.Name (_f : SourceFile) : String := "file"

/-- Results of `ReadBytes` with the effects of the call. -/
structure ReadResult where
  data : ByteSlice
  error : Option CherryError
  trace : List Effect
  deriving DecidableEq, Repr

/-- Method `ReadBytes`. -/
def SourceFile.ReadBytes (f : SourceFile) (env : Env) (configName : String) : ReadResult :=
  if configName = "" then
    { data := none, error := some (cherryError.Error "configName is empty."), trace := [] }
  else
    let joined := env.JoinPath f.monitorPath (configName ++ f.extName)
    let fullPath := joined.1
    let t1 := [Effect.joinPath f.monitorPath (configName ++ f.extName)]
    match joined.2 with
    | some err =>
      { data := none,
        error := some (cherryError.Errorf "file not found. err = %v, fullPath = %s"
          [Arg.err (some err), Arg.str fullPath]),
        trace := t1 }
    | none =>
      let t2 := t1 ++ [Effect.isDir fullPath]
      if env.IsDir fullPath then
        { data := none,
          error := some (cherryError.Errorf "path is dir. fullPath = %s"
            [Arg.err none, Arg.str fullPath]),
          trace := t2 }
      else
        let read := env.ReadFile fullPath
        let t3 := t2 ++ [Effect.readFile fullPath]
        match read.2 with
        | some err =>
          { data := none,
            error := some (cherryError.Errorf "read file err. err = %v path = %s"
              [Arg.err (some err), Arg.str fullPath]),
            trace := t3 }
        | none =>
          if len read.1 < 1 then
            { data := none, error := some (cherryError.Error "configName data is err."),
              trace := t3 }
          else
            { data := read.1, error := none, trace := t3 }

/-- Method `OnChange`. -/
def SourceFile.OnChange (f : SourceFile) (fn : ConfigChangeFn) : SourceFile :=
  { f with configChangeFn := fn }

/-- Source after `Init` with the effects of the call. -/
structure InitResult where
  src : SourceFile
  trace : List Effect
  deriving DecidableEq, Repr

/-- Method `Init`. -/
def SourceFile.Init (f : SourceFile) (env : Env) (p : Profile) : InitResult :=
  match p.Get_file with
  | none =>
    { src := f,
      trace := [Effect.log "Warnf"
        [Arg.str "`data_config` node in `%s` file not found.", Arg.str p.FileName]] }
  | some fileNode =>
    let filePath := if fileNode.file_path = "" then "data_config/" else fileNode.file_path
    let f1 := { f with extName := fileNode.ext_name }
    let f2 := if f1.extName = "" then { f1 with extName := ".json" } else f1
    let joined := env.JoinPath p.Dir filePath
    let f3 := { f2 with monitorPath := joined.1 }
    let t1 := [Effect.joinPath p.Dir filePath]
    match joined.2 with
    | some err =>
      { src := f3, trace := t1 ++ [Effect.log "Warn" [Arg.err (some err)]] }
    | none =>
      let f4 := { f3 with reloadTime := fileNode.reload_time }
      let f5 := if f4.reloadTime < 1 then { f4 with reloadTime := 3000 } else f4
      { src := f5, trace := t1 ++ [Effect.goNewWatcher] }

/-- Number of `go f.newWatcher()` statements executed. -/
def launches (t : List Effect) : Nat :=
  t.count Effect.goNewWatcher

/-- Source after `newWatcher` with the effects of the call; `loop` tells whether the
goroutine of the watch loop was launched. -/
structure NewWatcherResult where
  src : SourceFile
  loop : Bool
  trace : List Effect
  deriving DecidableEq, Repr

/-- Method `newWatcher`, the body of the launched goroutine apart (it is `iteration`
and `watchLoop` below). -/
def SourceFile.newWatcher (f : SourceFile) (env : Env) : NewWatcherResult :=
  let w1 := watcher.New
  let w2 := { w1 with maxEvents := 1 }
  let w3 := { w2 with ops := ["Write"] }
  let f1 := { f with watcher := some w3 }
  let t1 := [Effect.watcherAdd f1.monitorPath]
  match env.Add f1.monitorPath with
  | some err =>
    { src := f1, loop := false,
      trace := t1 ++ [Effect.log "Warn"
        [Arg.str "new watcher error. path=%s, err=%v", Arg.str f1.monitorPath,
         Arg.err (some err)]] }
  | none =>
    let f2 := { f1 with watcher := some { w3 with names := f1.monitorPath :: w3.names } }
    let t2 := t1 ++ [Effect.goLoop, Effect.watcherStart f2.reloadTime]
    match env.Start f2.reloadTime with
    | some err => { src := f2, loop := true, trace := t2 ++ [Effect.log "Warn" [Arg.err (some err)]] }
    | none => { src := f2, loop := true, trace := t2 }

/-- Value of type `watcher.Event` as the loop reads it. -/
structure WatchEvent where
  /-- Value of `ev.IsDir()`. -/
  isDir : Bool
  /-- Value of `ev.FileInfo.Name()`. -/
  name : String
  deriving DecidableEq, Repr

/-- What one `select` of the watch loop receives. -/
inductive Msg where
  /-- Receive from `f.watcher.Event`. -/
  | event (ev : WatchEvent)
  /-- Receive from `f.watcher.Error`. -/
  | error (err : ExtError)
  /-- Receive from `f.watcher.Closed`. -/
  | closed
  deriving DecidableEq, Repr

/-- One pass through the body of `for { select { ... } }` in `newWatcher`: the effects of
the pass, and `true` when the loop goes on to the next pass, `false` when the goroutine
returns. -/
def iteration (f : SourceFile) (env : Env) : Msg → Bool × List Effect
  | Msg.event ev =>
    if ev.isDir then
      (false, [])
    else
      let configName := env.GetFileName ev.name true
      let t1 := [Effect.log "Infof" [Arg.str "[name = %s] file change.", Arg.str configName]]
      let r := f.ReadBytes env configName
      let t2 := t1 ++ r.trace
      match r.error with
      | some err => (false, t2 ++ [Effect.logError "Error" err])
      | none =>
        match f.configChangeFn with
        | some fn => (true, t2 ++ [Effect.call fn configName r.data])
        | none => (true, t2)
  | Msg.error err => (false, [Effect.log "Error" [Arg.err (some err)]])
  | Msg.closed => (false, [])

/-- What the loop meets at one `select`: the message received, and the source and the
file system as they are at that moment. -/
structure Tick where
  src : SourceFile
  env : Env
  msg : Msg

/-- Goroutine of the watch loop, run on the messages it will receive: its effects. -/
def watchLoop : List Tick → List Effect
  | [] => []
  | t :: rest =>
    let r := iteration t.src t.env t.msg
    if r.1 then r.2 ++ watchLoop rest else r.2

/-- Is the goroutine of the watch loop still in its `for`? -/
inductive LoopState where
  | running
  | terminated
  deriving DecidableEq, Repr

/-- Watch loop as a state machine: its state and the effects it has had so far. -/
structure Loop where
  state : LoopState
  trace : List Effect
  deriving DecidableEq, Repr

/-- Loop right after `go func() { ... }()`. -/
def Loop.start : Loop :=
  { state := LoopState.running, trace := [] }

/-- Step of the watch loop: a running loop makes one pass, a goroutine that has returned
does nothing. -/
def Loop.step (l : Loop) (t : Tick) : Loop :=
  match l.state with
  | LoopState.terminated => l
  | LoopState.running =>
    let r := iteration t.src t.env t.msg
    { state := if r.1 then LoopState.running else LoopState.terminated,
      trace := l.trace ++ r.2 }

/-- Steps of the watch loop over a sequence of messages. -/
def Loop.run (l : Loop) (ts : List Tick) : Loop :=
  ts.foldl Loop.step l

/-- Source after `Stop` with the effects of the call. -/
structure StopResult where
  src : SourceFile
  trace : List Effect
  deriving DecidableEq, Repr

/-- Method `Stop`. -/
def SourceFile.Stop (f : SourceFile) (env : Env) : StopResult :=
  match f.watcher with
  | none => { src := f, trace := [] }
  | some w =>
    let t1 := [Effect.watcherRemove f.monitorPath]
    let w1 := { w with names := w.names.erase f.monitorPath }
    let t2 := match env.Remove f.monitorPath with
      | some err => t1 ++ [Effect.log "Warn" [Arg.err (some err)]]
      | none => t1
    { src := { f with watcher := some w1 },
      trace := t2 ++ [Effect.log "Infof" [Arg.str "remove watcher [path = %s]",
        Arg.str f.monitorPath], Effect.sendClosed] }

/-! ## A concrete setting

Directory `cfg` holds `items.json` (seven bytes), `empty.json` (no bytes) and a directory
`sub.json`; the path `cfg/bad` cannot be added to a watcher. -/

/-- Content of `cfg/items.json`. -/
def demoBytes : Bytes := [123, 34, 97, 34, 58, 49, 125]

/-- File system and watcher of the concrete setting. -/
def demoEnv : Env where
  JoinPath := fun a b => if a = "" then ("", some { msg := "no base" }) else (a ++ "/" ++ b, none)
  IsDir := fun p => p = "cfg/sub.json"
  ReadFile := fun p =>
    if p = "cfg/items.json" then (some demoBytes, none)
    else if p = "cfg/empty.json" then (some [], none)
    else (none, some { msg := "open: no such file" })
  GetFileName := fun n _ => String.mk (n.data.takeWhile (fun c => c != '.'))
  Add := fun p => if p = "cfg/bad" then some { msg := "lstat: no such file" } else none
  Remove := fun _ => none
  Start := fun _ => none

/-- Source of the concrete setting. -/
def demoSrc : SourceFile :=
  { monitorPath := "cfg", watcher := none, reloadTime := 100, extName := ".json",
    configChangeFn := none }

/-! ## ReadBytes -/

/-- What `ReadBytes` does past the name check when the path resolves to `fullPath`. -/
theorem readBytes_resolved (f : SourceFile) (env : Env) (configName fullPath : String)
    (hname : configName ≠ "")
    (hjoin : env.JoinPath f.monitorPath (configName ++ f.extName) = (fullPath, none)) :
    f.ReadBytes env configName =
      if env.IsDir fullPath then
        { data := none,
          error := some (cherryError.Errorf "path is dir. fullPath = %s"
            [Arg.err none, Arg.str fullPath]),
          trace := [Effect.joinPath f.monitorPath (configName ++ f.extName),
            Effect.isDir fullPath] }
      else
        match (env.ReadFile fullPath).2 with
        | some err =>
          { data := none,
            error := some (cherryError.Errorf "read file err. err = %v path = %s"
              [Arg.err (some err), Arg.str fullPath]),
            trace := [Effect.joinPath f.monitorPath (configName ++ f.extName),
              Effect.isDir fullPath, Effect.readFile fullPath] }
        | none =>
          if len (env.ReadFile fullPath).1 < 1 then
            { data := none, error := some (cherryError.Error "configName data is err."),
              trace := [Effect.joinPath f.monitorPath (configName ++ f.extName),
                Effect.isDir fullPath, Effect.readFile fullPath] }
          else
            { data := (env.ReadFile fullPath).1, error := none,
              trace := [Effect.joinPath f.monitorPath (configName ++ f.extName),
                Effect.isDir fullPath, Effect.readFile fullPath] } := by
  unfold SourceFile.ReadBytes
  simp only [hname, if_false, hjoin]
  rfl

/-- C1: for a non-empty `configName` whose path resolves to `fullPath`, which is not a
directory and whose read yields bytes `b` with `len(b) >= 1`, `ReadBytes` returns
`(b, nil)`, the bytes read and no others. -/
theorem readBytes_returns_content (f : SourceFile) (env : Env) (configName fullPath : String)
    (b : Bytes) (hname : configName ≠ "")
    (hjoin : env.JoinPath f.monitorPath (configName ++ f.extName) = (fullPath, none))
    (hdir : env.IsDir fullPath = false)
    (hread : env.ReadFile fullPath = (some b, none))
    (hlen : 1 ≤ b.length) :
    (f.ReadBytes env configName).data = some b ∧ (f.ReadBytes env configName).error = none := by
  rw [readBytes_resolved f env configName fullPath hname hjoin]
  have hnot : ¬ (len (some b) < 1) := by simp only [len]; omega
  simp [hdir, hread, hnot]

/-- Witness of C1 on `cfg/items.json`. -/
theorem readBytes_returns_content_witness :
    (demoSrc.ReadBytes demoEnv "items").data = some demoBytes ∧
      (demoSrc.ReadBytes demoEnv "items").error = none :=
  readBytes_returns_content demoSrc demoEnv "items" "cfg/items.json" demoBytes
    (by decide) (by decide) (by decide) (by decide) (by decide)

/-- C2: when `ReadBytes` returns a nil error the data has length at least one; and for a
non-empty name whose path resolves, is not a directory and is read without error as zero
bytes, `ReadBytes` returns nil data and the error `configName data is err.`. -/
theorem readBytes_no_empty_payload (f : SourceFile) (env : Env) (configName : String) :
    ((f.ReadBytes env configName).error = none → 1 ≤ len (f.ReadBytes env configName).data) ∧
    (∀ (fullPath : String) (data : ByteSlice), configName ≠ "" →
      env.JoinPath f.monitorPath (configName ++ f.extName) = (fullPath, none) →
      env.IsDir fullPath = false →
      env.ReadFile fullPath = (data, none) →
      len data = 0 →
      (f.ReadBytes env configName).data = none ∧
        (f.ReadBytes env configName).error =
          some (cherryError.Error "configName data is err.")) := by
  constructor
  · unfold SourceFile.ReadBytes
    intro h
    split at h
    · simp at h
    · revert h
      simp only []
      split
      · simp
      · split
        · simp
        · split
          · simp
          · split
            · simp
            · rename_i hlen
              intro _
              exact Nat.le_of_not_lt hlen
  · intro fullPath data hname hjoin hdir hread hlen
    rw [readBytes_resolved f env configName fullPath hname hjoin]
    simp [hdir, hread, hlen]

/-- Witness of C2: `items` is returned with seven bytes, `empty` is refused. -/
theorem readBytes_no_empty_payload_witness :
    1 ≤ len (demoSrc.ReadBytes demoEnv "items").data ∧
    ((demoSrc.ReadBytes demoEnv "empty").data = none ∧
      (demoSrc.ReadBytes demoEnv "empty").error =
        some (cherryError.Error "configName data is err.")) :=
  ⟨(readBytes_no_empty_payload demoSrc demoEnv "items").1 (by decide),
   (readBytes_no_empty_payload demoSrc demoEnv "empty").2 "cfg/empty.json" (some [])
     (by decide) (by decide) (by decide) (by decide) (by decide)⟩

/-- C3: `ReadBytes("")` returns nil data and the error `configName is empty.` for every
source and every file system, and makes no call at all before doing so (no path
resolution, no directory test, no read). -/
theorem readBytes_empty_name (f : SourceFile) (env : Env) :
    f.ReadBytes env "" =
      { data := none, error := some (cherryError.Error "configName is empty."),
        trace := [] } := by
  unfold SourceFile.ReadBytes
  simp

/-- C4: for a non-empty `configName` whose path resolves to a directory, `ReadBytes`
returns nil data and the `path is dir` error, and its calls are the path resolution and
the directory test only: `ioutil.ReadFile` is not called, whatever it would return. -/
theorem readBytes_directory (f : SourceFile) (env : Env) (configName fullPath : String)
    (hname : configName ≠ "")
    (hjoin : env.JoinPath f.monitorPath (configName ++ f.extName) = (fullPath, none))
    (hdir : env.IsDir fullPath = true) :
    (f.ReadBytes env configName).data = none ∧
    (f.ReadBytes env configName).error =
      some (cherryError.Errorf "path is dir. fullPath = %s" [Arg.err none, Arg.str fullPath]) ∧
    (f.ReadBytes env configName).trace =
      [Effect.joinPath f.monitorPath (configName ++ f.extName), Effect.isDir fullPath] ∧
    (f.ReadBytes env configName).trace.any Effect.isRead = false := by
  rw [readBytes_resolved f env configName fullPath hname hjoin]
  simp [hdir, Effect.isRead]

/-- Witness of C4 on the directory `cfg/sub.json`. -/
theorem readBytes_directory_witness :
    (demoSrc.ReadBytes demoEnv "sub").data = none ∧
    (demoSrc.ReadBytes demoEnv "sub").error =
      some (cherryError.Errorf "path is dir. fullPath = %s"
        [Arg.err none, Arg.str "cfg/sub.json"]) ∧
    (demoSrc.ReadBytes demoEnv "sub").trace =
      [Effect.joinPath demoSrc.monitorPath ("sub" ++ demoSrc.extName),
        Effect.isDir "cfg/sub.json"] ∧
    (demoSrc.ReadBytes demoEnv "sub").trace.any Effect.isRead = false :=
  readBytes_directory demoSrc demoEnv "sub" "cfg/sub.json" (by decide) (by decide) (by decide)

/-! ## Init -/

/-- The guard `fileNode == nil` of `Init` never holds: what `Init` tests is a non-nil
value, invalid when the document has no `file` node. -/
theorem get_file_some (p : Profile) :
    p.Get_file = some (match p.file with
      | none => Any.invalid
      | some node => Any.object node) := by
  unfold Profile.Get_file
  cases p.file <;> rfl

/-- What `Init` does on the value `fileNode` it got from the profile. -/
theorem init_read (f : SourceFile) (env : Env) (p : Profile) (fileNode : Any)
    (hget : p.Get_file = some fileNode) :
    f.Init env p =
      match (env.JoinPath p.Dir
        (if fileNode.file_path = "" then "data_config/" else fileNode.file_path)).2 with
      | some err =>
        { src := { f with
            extName := if fileNode.ext_name = "" then ".json" else fileNode.ext_name,
            monitorPath := (env.JoinPath p.Dir
              (if fileNode.file_path = "" then "data_config/" else fileNode.file_path)).1 },
          trace := [Effect.joinPath p.Dir
              (if fileNode.file_path = "" then "data_config/" else fileNode.file_path),
            Effect.log "Warn" [Arg.err (some err)]] }
      | none =>
        { src := { f with
            extName := if fileNode.ext_name = "" then ".json" else fileNode.ext_name,
            monitorPath := (env.JoinPath p.Dir
              (if fileNode.file_path = "" then "data_config/" else fileNode.file_path)).1,
            reloadTime := if fileNode.reload_time < 1 then 3000 else fileNode.reload_time },
          trace := [Effect.joinPath p.Dir
              (if fileNode.file_path = "" then "data_config/" else fileNode.file_path),
            Effect.goNewWatcher] } := by
  unfold SourceFile.Init
  simp only [hget]
  by_cases h1 : fileNode.file_path = "" <;> by_cases h2 : fileNode.ext_name = "" <;>
    by_cases h3 : fileNode.reload_time < 1 <;>
    simp only [h1, h2, h3, if_true, if_false] <;>
    split <;> rename_i h4 <;> simp [h4]

/-- What `Init` does when the `file` node is present. -/
theorem init_present (f : SourceFile) (env : Env) (p : Profile) (node : FileNode)
    (hnode : p.file = some node) :
    f.Init env p =
      match (env.JoinPath p.Dir
        (if node.file_path = "" then "data_config/" else node.file_path)).2 with
      | some err =>
        { src := { f with
            extName := if node.ext_name = "" then ".json" else node.ext_name,
            monitorPath := (env.JoinPath p.Dir
              (if node.file_path = "" then "data_config/" else node.file_path)).1 },
          trace := [Effect.joinPath p.Dir
              (if node.file_path = "" then "data_config/" else node.file_path),
            Effect.log "Warn" [Arg.err (some err)]] }
      | none =>
        { src := { f with
            extName := if node.ext_name = "" then ".json" else node.ext_name,
            monitorPath := (env.JoinPath p.Dir
              (if node.file_path = "" then "data_config/" else node.file_path)).1,
            reloadTime := if node.reload_time < 1 then 3000 else node.reload_time },
          trace := [Effect.joinPath p.Dir
              (if node.file_path = "" then "data_config/" else node.file_path),
            Effect.goNewWatcher] } := by
  have hget : p.Get_file = some (Any.object node) := by
    unfold Profile.Get_file
    simp only [hnode]
  exact init_read f env p (Any.object node) hget

/-- With the `file` node absent `Init` does what it does on a node whose three children
are all missing. -/
theorem init_absent (f : SourceFile) (env : Env) (p : Profile) (hnode : p.file = none) :
    f.Init env p =
      f.Init env { p with file := some { file_path := "", ext_name := "", reload_time := 0 } } := by
  have h1 : p.Get_file = some Any.invalid := by
    unfold Profile.Get_file
    simp only [hnode]
  rw [init_read f env p Any.invalid h1,
    init_present f env _ { file_path := "", ext_name := "", reload_time := 0 } rfl]
  rfl

/-- Launches of `newWatcher` by `Init`: none when the join fails, exactly one, as the last
action and with `monitorPath` holding the joined path, when it succeeds; the loop
goroutine is never started by `Init` itself. -/
theorem init_launches (f : SourceFile) (env : Env) (p : Profile) (fileNode : Any)
    (hget : p.Get_file = some fileNode) :
    ((env.JoinPath p.Dir
        (if fileNode.file_path = "" then "data_config/" else fileNode.file_path)).2 ≠ none →
      launches (f.Init env p).trace = 0) ∧
    ((env.JoinPath p.Dir
        (if fileNode.file_path = "" then "data_config/" else fileNode.file_path)).2 = none →
      launches (f.Init env p).trace = 1 ∧
      (f.Init env p).trace.getLast? = some Effect.goNewWatcher ∧
      (f.Init env p).src.monitorPath =
        (env.JoinPath p.Dir
          (if fileNode.file_path = "" then "data_config/" else fileNode.file_path)).1) ∧
    launches (f.Init env p).trace ≤ 1 ∧
    Effect.goLoop ∉ (f.Init env p).trace := by
  rw [init_read f env p fileNode hget]
  cases hjoin : (env.JoinPath p.Dir
      (if fileNode.file_path = "" then "data_config/" else fileNode.file_path)).2 with
  | none => simp [launches, hjoin]
  | some err => simp [launches, hjoin]

/-- C5: with the `file` node present and the join of the profile directory with the file
path succeeding, `Init` (i) joins `file_path`, or `data_config/` when `file_path` is empty,
and keeps the result as `monitorPath`; (ii) sets `extName` to `ext_name`, or `.json` when
`ext_name` is empty; (iii) sets `reloadTime` to `reload_time` when it is at least 1 and
to 3000 when it is below 1. -/
theorem init_defaults (f : SourceFile) (env : Env) (p : Profile) (node : FileNode)
    (hnode : p.file = some node)
    (hjoin : (env.JoinPath p.Dir
      (if node.file_path = "" then "data_config/" else node.file_path)).2 = none) :
    (f.Init env p).trace =
      [Effect.joinPath p.Dir (if node.file_path = "" then "data_config/" else node.file_path),
        Effect.goNewWatcher] ∧
    (f.Init env p).src.monitorPath =
      (env.JoinPath p.Dir
        (if node.file_path = "" then "data_config/" else node.file_path)).1 ∧
    (f.Init env p).src.extName = (if node.ext_name = "" then ".json" else node.ext_name) ∧
    (1 ≤ node.reload_time → (f.Init env p).src.reloadTime = node.reload_time) ∧
    (node.reload_time < 1 → (f.Init env p).src.reloadTime = 3000) := by
  rw [init_present f env p node hnode]
  simp only [hjoin]
  refine ⟨trivial, trivial, trivial, ?_, ?_⟩
  · intro h
    have h1 : ¬ node.reload_time < 1 := by omega
    simp [h1]
  · intro h
    simp [h]

/-- Witness of C5: a node that sets nothing gets the defaults, and a configured
`reload_time` of 250 is kept. -/
theorem init_defaults_witness :
    (SourceFile.zero.Init demoEnv
        { file := some { file_path := "", ext_name := "", reload_time := -4 },
          Dir := "prof", FileName := "profile-local.json" }).src.monitorPath =
      "prof/data_config/" ∧
    (SourceFile.zero.Init demoEnv
        { file := some { file_path := "", ext_name := "", reload_time := -4 },
          Dir := "prof", FileName := "profile-local.json" }).src.extName = ".json" ∧
    (SourceFile.zero.Init demoEnv
        { file := some { file_path := "", ext_name := "", reload_time := -4 },
          Dir := "prof", FileName := "profile-local.json" }).src.reloadTime = 3000 ∧
    (SourceFile.zero.Init demoEnv
        { file := some { file_path := "d", ext_name := ".toml", reload_time := 250 },
          Dir := "prof", FileName := "profile-local.json" }).src.reloadTime = 250 :=
  ⟨(init_defaults SourceFile.zero demoEnv
      { file := some { file_path := "", ext_name := "", reload_time := -4 },
        Dir := "prof", FileName := "profile-local.json" }
      { file_path := "", ext_name := "", reload_time := -4 } rfl (by decide)).2.1.trans
      (by decide),
   (init_defaults SourceFile.zero demoEnv
      { file := some { file_path := "", ext_name := "", reload_time := -4 },
        Dir := "prof", FileName := "profile-local.json" }
      { file_path := "", ext_name := "", reload_time := -4 } rfl (by decide)).2.2.1.trans
      (by decide),
   (init_defaults SourceFile.zero demoEnv
      { file := some { file_path := "", ext_name := "", reload_time := -4 },
        Dir := "prof", FileName := "profile-local.json" }
      { file_path := "", ext_name := "", reload_time := -4 } rfl (by decide)).2.2.2.2
      (by decide),
   (init_defaults SourceFile.zero demoEnv
      { file := some { file_path := "d", ext_name := ".toml", reload_time := 250 },
        Dir := "prof", FileName := "profile-local.json" }
      { file_path := "d", ext_name := ".toml", reload_time := 250 } rfl (by decide)).2.2.2.1
      (by decide)⟩

/-- C6, as stated, fails: when the join of the profile directory with the file path
fails, `Init` returns before it assigns `reloadTime`, which on the zero value stays 0
whatever `reload_time` says. -/
theorem init_not_always_valid :
    (SourceFile.zero.Init demoEnv
        { file := some { file_path := "d", ext_name := ".toml", reload_time := 250 },
          Dir := "", FileName := "profile-local.json" }).src.reloadTime = 0 ∧
    ¬ (1 ≤ (SourceFile.zero.Init demoEnv
        { file := some { file_path := "d", ext_name := ".toml", reload_time := 250 },
          Dir := "", FileName := "profile-local.json" }).src.reloadTime) := by
  decide

/-- C6, amended: after `Init`, for every configuration (node present or absent, join
succeeding or failing) and every initial source, `extName` is non-empty; and when the
join of the profile directory with the file path succeeds, `reloadTime` is at least 1. -/
theorem init_valid_when_joined (f : SourceFile) (env : Env) (p : Profile) :
    (f.Init env p).src.extName ≠ "" ∧
    (∀ fileNode : Any, p.Get_file = some fileNode →
      (env.JoinPath p.Dir
        (if fileNode.file_path = "" then "data_config/" else fileNode.file_path)).2 = none →
      1 ≤ (f.Init env p).src.reloadTime) := by
  constructor
  · rw [init_read f env p _ (get_file_some p)]
    generalize (match p.file with
      | none => Any.invalid
      | some node => Any.object node) = fileNode
    have hext : (if fileNode.ext_name = "" then ".json" else fileNode.ext_name) ≠ "" := by
      by_cases h : fileNode.ext_name = ""
      · simp only [h, if_true]
        decide
      · simp only [h, if_false]
        exact h
    split <;> exact hext
  · intro fileNode hget hjoin
    rw [init_read f env p fileNode hget]
    simp only [hjoin]
    by_cases h : fileNode.reload_time < 1
    · simp [h]
    · simp only [h, if_false]
      omega

/-- Witness of the amended C6: a document without the `file` node, join succeeding. -/
theorem init_valid_when_joined_witness :
    (SourceFile.zero.Init demoEnv
        { file := none, Dir := "prof", FileName := "profile-local.json" }).src.extName ≠ "" ∧
    1 ≤ (SourceFile.zero.Init demoEnv
        { file := none, Dir := "prof", FileName := "profile-local.json" }).src.reloadTime :=
  ⟨(init_valid_when_joined SourceFile.zero demoEnv
      { file := none, Dir := "prof", FileName := "profile-local.json" }).1,
   (init_valid_when_joined SourceFile.zero demoEnv
      { file := none, Dir := "prof", FileName := "profile-local.json" }).2
      Any.invalid rfl (by decide)⟩

/-- C7, at a document without the `file` node: what `Init` tests against nil is the
invalid value, not nil, so `Init` goes on, writes `monitorPath`, `extName` and
`reloadTime`, and launches `newWatcher`. -/
theorem init_absent_node_not_inert :
    ({ file := none, Dir := "prof", FileName := "profile-local.json" } : Profile).Get_file =
      some Any.invalid ∧
    (SourceFile.zero.Init demoEnv
        { file := none, Dir := "prof", FileName := "profile-local.json" }).src =
      { monitorPath := "prof/data_config/", watcher := none, reloadTime := 3000,
        extName := ".json", configChangeFn := none } ∧
    (SourceFile.zero.Init demoEnv
        { file := none, Dir := "prof", FileName := "profile-local.json" }).trace =
      [Effect.joinPath "prof" "data_config/", Effect.goNewWatcher] ∧
    launches (SourceFile.zero.Init demoEnv
        { file := none, Dir := "prof", FileName := "profile-local.json" }).trace = 1 := by
  decide

/-! ## Watch loop -/

theorem callsOf_append (xs ys : List Effect) : callsOf (xs ++ ys) = callsOf xs ++ callsOf ys := by
  induction xs with
  | nil => rfl
  | cons x xs ih => cases x <;> simp [callsOf, ih]

/-- The method `ReadBytes` invokes no callback. -/
theorem callsOf_readBytes (f : SourceFile) (env : Env) (configName : String) :
    callsOf (f.ReadBytes env configName).trace = [] := by
  unfold SourceFile.ReadBytes
  split
  · rfl
  · simp only []
    split
    · rfl
    · split
      · rfl
      · split
        · rfl
        · split <;> rfl

/-- The method `ReadBytes` does not read the registered callback. -/
theorem readBytes_onChange (f : SourceFile) (fn : ConfigChangeFn) (env : Env)
    (configName : String) :
    (f.OnChange fn).ReadBytes env configName = f.ReadBytes env configName := rfl

/-- A pass on a file event whose read succeeds: the loop goes on, and the callback
invocations are one call of the registered function, or none when it is nil. -/
theorem iteration_file_ok (f : SourceFile) (env : Env) (ev : WatchEvent)
    (hfile : ev.isDir = false)
    (herr : (f.ReadBytes env (env.GetFileName ev.name true)).error = none) :
    (iteration f env (Msg.event ev)).1 = true ∧
    callsOf (iteration f env (Msg.event ev)).2 =
      match f.configChangeFn with
      | some fn =>
        [{ fn := fn, configName := env.GetFileName ev.name true,
           data := (f.ReadBytes env (env.GetFileName ev.name true)).data }]
      | none => [] := by
  unfold iteration
  simp only [hfile, herr]
  cases f.configChangeFn with
  | none => simp [callsOf_append, callsOf_readBytes, callsOf]
  | some fn => simp [callsOf_append, callsOf_readBytes, callsOf]

/-- A goroutine that has returned stays so, with no further effect. -/
theorem run_terminated (l : Loop) (ts : List Tick) (h : l.state = LoopState.terminated) :
    l.run ts = l := by
  induction ts with
  | nil => rfl
  | cons t ts ih =>
    have hstep : l.step t = l := by
      unfold Loop.step
      simp [h]
    simp only [Loop.run, List.foldl_cons, hstep]
    exact ih

/-- The state machine and the loop agree: on the same messages the effects recorded by
the steps of a running loop are those of `watchLoop`. -/
theorem run_trace_eq_watchLoop (l : Loop) (ts : List Tick) (h : l.state = LoopState.running) :
    (l.run ts).trace = l.trace ++ watchLoop ts := by
  induction ts generalizing l with
  | nil => simp [Loop.run, watchLoop]
  | cons t ts ih =>
    simp only [Loop.run, List.foldl_cons, watchLoop]
    by_cases hc : (iteration t.src t.env t.msg).1 = true
    · have hs : (l.step t).state = LoopState.running := by
        unfold Loop.step
        simp [h, hc]
      have := ih (l.step t) hs
      simp only [Loop.run] at this
      rw [this]
      unfold Loop.step
      simp [h, hc]
    · have hs : (l.step t).state = LoopState.terminated := by
        unfold Loop.step
        simp [h, hc]
      have := run_terminated (l.step t) ts hs
      simp only [Loop.run] at this
      rw [this]
      unfold Loop.step
      simp [h, hc]

/-- The loop run on messages of which one is a close signal: what comes after the close
signal has no effect, and the close signal has none itself. -/
theorem watchLoop_closed (earlier later : List Tick) (src : SourceFile) (env : Env) :
    watchLoop (earlier ++ { src := src, env := env, msg := Msg.closed } :: later) =
      watchLoop earlier := by
  induction earlier with
  | nil => simp [watchLoop, iteration]
  | cons t ts ih =>
    rw [List.cons_append]
    unfold watchLoop
    rw [ih]

/-- `Stop` on a source without a watcher does nothing. -/
theorem stop_nil_watcher (f : SourceFile) (env : Env) (h : f.watcher = none) :
    f.Stop env = { src := f, trace := [] } := by
  unfold SourceFile.Stop
  simp [h]

/-- C8: a running loop that receives a non-directory event whose file name yields
`configName`, and for which `ReadBytes(configName)` returns `(data, nil)`, invokes the
function registered by the latest `OnChange` exactly once, with `(configName, data)`, and
no other function, and stays running; with no function registered it invokes nothing and
stays running. -/
theorem loop_delivers_change (l : Loop) (f : SourceFile) (env : Env) (ev : WatchEvent)
    (configName : String) (data : ByteSlice) (earlier : ConfigChangeFn) (g : Func)
    (hrun : l.state = LoopState.running)
    (hfile : ev.isDir = false)
    (hname : env.GetFileName ev.name true = configName)
    (herr : (f.ReadBytes env configName).error = none)
    (hdata : (f.ReadBytes env configName).data = data) :
    ((l.step { src := (f.OnChange earlier).OnChange (some g), env := env,
               msg := Msg.event ev }).state = LoopState.running ∧
      callsOf (l.step { src := (f.OnChange earlier).OnChange (some g), env := env,
                        msg := Msg.event ev }).trace =
        callsOf l.trace ++ [{ fn := g, configName := configName, data := data }]) ∧
    (f.configChangeFn = none →
      (l.step { src := f, env := env, msg := Msg.event ev }).state = LoopState.running ∧
      callsOf (l.step { src := f, env := env, msg := Msg.event ev }).trace =
        callsOf l.trace) := by
  subst hname
  subst hdata
  constructor
  · have h := iteration_file_ok ((f.OnChange earlier).OnChange (some g)) env ev hfile herr
    unfold Loop.step
    simp only [hrun, h.1, if_true, callsOf_append, h.2]
    exact ⟨trivial, rfl⟩
  · intro hnone
    have h := iteration_file_ok f env ev hfile herr
    unfold Loop.step
    simp only [hrun, h.1, if_true, callsOf_append, h.2, hnone, List.append_nil]
    exact ⟨trivial, trivial⟩

/-- Witness of C8: a write of `items.json` after two registrations, and with none. -/
theorem loop_delivers_change_witness :
    ((Loop.start.step { src := (demoSrc.OnChange (some { id := 1 })).OnChange (some { id := 2 }),
                        env := demoEnv,
                        msg := Msg.event { isDir := false, name := "items.json" } }).state =
        LoopState.running ∧
      callsOf (Loop.start.step
          { src := (demoSrc.OnChange (some { id := 1 })).OnChange (some { id := 2 }),
            env := demoEnv,
            msg := Msg.event { isDir := false, name := "items.json" } }).trace =
        callsOf Loop.start.trace ++
          [{ fn := { id := 2 }, configName := "items", data := some demoBytes }]) ∧
    ((Loop.start.step { src := demoSrc, env := demoEnv,
                        msg := Msg.event { isDir := false, name := "items.json" } }).state =
        LoopState.running ∧
      callsOf (Loop.start.step { src := demoSrc, env := demoEnv,
                                 msg := Msg.event { isDir := false, name := "items.json" } }).trace =
        callsOf Loop.start.trace) :=
  ⟨(loop_delivers_change Loop.start demoSrc demoEnv { isDir := false, name := "items.json" }
      "items" (some demoBytes) (some { id := 1 }) { id := 2 }
      rfl rfl (by decide) (by decide) (by decide)).1,
   (loop_delivers_change Loop.start demoSrc demoEnv { isDir := false, name := "items.json" }
      "items" (some demoBytes) (some { id := 1 }) { id := 2 }
      rfl rfl (by decide) (by decide) (by decide)).2 rfl⟩

/-- C9: `Stop` on a source with a watcher ends by sending the close signal; the step of
the loop that receives the close signal leaves it terminated and invokes nothing; and
from then on, whatever messages follow, whatever the source and the file system are by
then, the loop stays terminated and has no further effect, so no further callback
invocation.  The same holds of `watchLoop`: messages after a close signal add nothing. -/
theorem no_calls_after_close (l : Loop) (src : SourceFile) (w : Watcher) (env : Env)
    (earlier later : List Tick) :
    (({ src with watcher := some w } : SourceFile).Stop env).trace.getLast? =
      some Effect.sendClosed ∧
    (l.step { src := src, env := env, msg := Msg.closed }).state = LoopState.terminated ∧
    (l.step { src := src, env := env, msg := Msg.closed }).trace = l.trace ∧
    ((l.step { src := src, env := env, msg := Msg.closed }).run later).state =
      LoopState.terminated ∧
    callsOf ((l.step { src := src, env := env, msg := Msg.closed }).run later).trace =
      callsOf l.trace ∧
    callsOf (watchLoop (earlier ++ { src := src, env := env, msg := Msg.closed } :: later)) =
      callsOf (watchLoop earlier) := by
  have hstate : (l.step { src := src, env := env, msg := Msg.closed }).state =
      LoopState.terminated := by
    unfold Loop.step
    cases hl : l.state with
    | running => simp [iteration]
    | terminated => simp [hl]
  have htrace : (l.step { src := src, env := env, msg := Msg.closed }).trace = l.trace := by
    unfold Loop.step
    cases hl : l.state with
    | running => simp [iteration]
    | terminated => simp
  refine ⟨?_, hstate, htrace, ?_, ?_, ?_⟩
  · unfold SourceFile.Stop
    simp only []
    cases env.Remove src.monitorPath <;> simp
  · rw [run_terminated _ later hstate]
    exact hstate
  · rw [run_terminated _ later hstate, htrace]
  · rw [watchLoop_closed]

/-- C10, at two sources without a running loop: after `newWatcher` failed to add
`cfg/bad` no loop was launched, and after a directory event the launched loop has
terminated; in both `Stop` unregisters the path and sends the close signal. -/
theorem stop_acts_without_loop :
    ((({ SourceFile.zero with monitorPath := "cfg/bad" } : SourceFile).newWatcher demoEnv).loop =
        false ∧
      ((({ SourceFile.zero with monitorPath := "cfg/bad" } : SourceFile).newWatcher
          demoEnv).src.Stop demoEnv).trace =
        [Effect.watcherRemove "cfg/bad",
         Effect.log "Infof" [Arg.str "remove watcher [path = %s]", Arg.str "cfg/bad"],
         Effect.sendClosed]) ∧
    ((Loop.start.step { src := (demoSrc.newWatcher demoEnv).src, env := demoEnv,
                        msg := Msg.event { isDir := true, name := "sub.json" } }).state =
        LoopState.terminated ∧
      (((demoSrc.newWatcher demoEnv).src.Stop demoEnv).trace =
        [Effect.watcherRemove "cfg",
         Effect.log "Infof" [Arg.str "remove watcher [path = %s]", Arg.str "cfg"],
         Effect.sendClosed])) := by
  decide

end Cherry
